import Mathlib

/-
Verification of the ollama-cal repository (src/main.py, src/ollama_cal_gtk.py):
a shallow embedding in Lean of the text-to-event extraction / confirmation /
publication pipeline, followed by theorems settling the frozen claims about it.

Conventions of the embedding:
* Python dictionaries produced by json.loads on the extraction reply are
  modelled as association lists of string pairs (the code annotates them as
  Dict[str, str] and only ever stores/reads string values).
* Nondeterministic externals (uuid4, datetime.now, the HTTP reply, the CalDAV
  server) are explicit parameters: a fresh-token argument, a clock argument,
  a ServiceReply value and a CaldavWorld value.
* Network side effects are reified as an Effect list returned alongside the
  result, in the order the code performs them.
-/

set_option maxRecDepth 8192

deriving instance DecidableEq for Except

namespace OllamaCal

/-! ## Python string primitives used by the code -/

/-- Model of Python str.lower as used on the ASCII confirmation answer in
main.py line 189 (maps each character to lower case). -/
def pyLower (s : String) : String := String.mk (s.data.map Char.toLower)

/-- Model of Python str.strip with no argument: remove leading and trailing
whitespace (main.py lines 166 and 189).  Lean whitespace (space, tab, CR, LF)
stands in for the Python whitespace class. -/
def pyStrip (s : String) : String :=
  String.mk (((s.data.dropWhile Char.isWhitespace).reverse.dropWhile Char.isWhitespace).reverse)

/-- Model of Python str.startswith on strings. -/
def pyStartsWith (s pre : String) : Bool := List.isPrefixOf pre.data s.data

/-- Python repr of a string without special characters: wrap in single
quotes.  Used by strptime error messages (f-string !r conversion). -/
def pyRepr (s : String) : String := "\x27" ++ s ++ "\x27"

/-- Python repr of a list of such strings, e.g. [\x27Home\x27, \x27Work\x27]. -/
def pyListRepr (l : List String) : String :=
  "[" ++ String.intercalate ", " (l.map pyRepr) ++ "]"

/-- Substring test on lists of characters (needle appearing contiguously). -/
def containsSubAux (n : List Char) : List Char → Bool
  | [] => n.isEmpty
  | c :: t => List.isPrefixOf n (c :: t) || containsSubAux n t

/-- Substring test on strings: does hay contain needle contiguously? -/
def containsSub (needle hay : String) : Bool := containsSubAux needle.data hay.data

/-! ## datetime.strptime with format "%Y-%m-%d %H:%M:%S"

Both bindings parse the start and end fields with
datetime.strptime(value, "%Y-%m-%d %H:%M:%S") (main.py lines 94-95,
ollama_cal_gtk.py lines 105-106).  CPython compiles this format to the regex
  (\d\d\d\d)-(1[0-2]|0[1-9]|[1-9])-(3[0-1]|[1-2]\d|0[1-9]|[1-9]| [1-9])\s+
  (2[0-3]|[0-1]\d|\d):([0-5]\d|\d):(6[0-1]|[0-5]\d|\d)
anchored at the start (note the space-padded day alternative of %d, kept by
CPython for ctime compatibility; %d is the only token of this format that
has one), then rejects the input if characters remain unconverted, and
finally the datetime constructor rejects year 0, a day beyond the month
length, and seconds above 59.  The parsers below implement exactly that
regex: the ordered alternations are deterministic for this format because
every numeric token is followed by a non-digit delimiter and the
space-padded day alternative fires only on a leading space, which no other
day alternative accepts.  parseTimestamp reproduces the ValueError messages
the claims inspect. -/

/-- Numeric value of a digit character. -/
def digitVal (c : Char) : Nat := c.toNat - 48

/-- Bool test that a character lies in an inclusive character range. -/
def charBetween (lo hi c : Char) : Bool :=
  if lo.toNat ≤ c.toNat ∧ c.toNat ≤ hi.toNat then true else false

/-- A parsed timestamp (the fields datetime.strptime extracts). -/
structure DateTime where
  year : Nat
  month : Nat
  day : Nat
  hour : Nat
  minute : Nat
  second : Nat
deriving DecidableEq, Repr

/-- Regex token %Y: exactly four digits. -/
def parseYear : List Char → Option (Nat × List Char)
  | a :: b :: c :: d :: rest =>
    if a.isDigit && b.isDigit && c.isDigit && d.isDigit then
      some (1000 * digitVal a + 100 * digitVal b + 10 * digitVal c + digitVal d, rest)
    else none
  | _ => none

/-- Regex token %m: 1[0-2] or 0[1-9] or [1-9], tried in that order. -/
def parseMonth : List Char → Option (Nat × List Char)
  | c1 :: c2 :: rest =>
    if c1 == '1' && charBetween '0' '2' c2 then some (10 + digitVal c2, rest)
    else if c1 == '0' && charBetween '1' '9' c2 then some (digitVal c2, rest)
    else if charBetween '1' '9' c1 then some (digitVal c1, c2 :: rest)
    else none
  | [c1] => if charBetween '1' '9' c1 then some (digitVal c1, []) else none
  | [] => none

/-- Regex token %d: 3[0-1] or [1-2]\d or 0[1-9] or [1-9] or, last, the
space-padded " [1-9]", in that order. -/
def parseDay : List Char → Option (Nat × List Char)
  | c1 :: c2 :: rest =>
    if c1 == '3' && (c2 == '0' || c2 == '1') then some (30 + digitVal c2, rest)
    else if (c1 == '1' || c1 == '2') && c2.isDigit then
      some (10 * digitVal c1 + digitVal c2, rest)
    else if c1 == '0' && charBetween '1' '9' c2 then some (digitVal c2, rest)
    else if charBetween '1' '9' c1 then some (digitVal c1, c2 :: rest)
    else if c1 == ' ' && charBetween '1' '9' c2 then some (digitVal c2, rest)
    else none
  | [c1] => if charBetween '1' '9' c1 then some (digitVal c1, []) else none
  | [] => none

/-- Regex token %H: 2[0-3] or [0-1]\d or \d, in that order. -/
def parseHour : List Char → Option (Nat × List Char)
  | c1 :: c2 :: rest =>
    if c1 == '2' && charBetween '0' '3' c2 then some (20 + digitVal c2, rest)
    else if (c1 == '0' || c1 == '1') && c2.isDigit then
      some (10 * digitVal c1 + digitVal c2, rest)
    else if c1.isDigit then some (digitVal c1, c2 :: rest)
    else none
  | [c1] => if c1.isDigit then some (digitVal c1, []) else none
  | [] => none

/-- Regex token %M: [0-5]\d or \d, in that order. -/
def parseMinute : List Char → Option (Nat × List Char)
  | c1 :: c2 :: rest =>
    if charBetween '0' '5' c1 && c2.isDigit then
      some (10 * digitVal c1 + digitVal c2, rest)
    else if c1.isDigit then some (digitVal c1, c2 :: rest)
    else none
  | [c1] => if c1.isDigit then some (digitVal c1, []) else none
  | [] => none

/-- Regex token %S: 6[0-1] or [0-5]\d or \d, in that order (strptime admits
leap seconds; the datetime constructor rejects them afterwards). -/
def parseSecond : List Char → Option (Nat × List Char)
  | c1 :: c2 :: rest =>
    if c1 == '6' && (c2 == '0' || c2 == '1') then some (60 + digitVal c2, rest)
    else if charBetween '0' '5' c1 && c2.isDigit then
      some (10 * digitVal c1 + digitVal c2, rest)
    else if c1.isDigit then some (digitVal c1, c2 :: rest)
    else none
  | [c1] => if c1.isDigit then some (digitVal c1, []) else none
  | [] => none

/-- A literal character of the format. -/
def expectChar (c : Char) : List Char → Option (List Char)
  | d :: cs => if d == c then some cs else none
  | [] => none

/-- The \s+ the format space compiles to: at least one whitespace character,
then any further whitespace. -/
def skipSpaces1 : List Char → Option (List Char)
  | c :: cs => if c.isWhitespace then some (cs.dropWhile Char.isWhitespace) else none
  | [] => none

/-- The whole regex for "%Y-%m-%d %H:%M:%S": the six numeric tokens with
their literal separators, returning the leftover characters. -/
def parseFields (cs : List Char) : Option (DateTime × List Char) := do
  let (y, cs) ← parseYear cs
  let cs ← expectChar '-' cs
  let (mo, cs) ← parseMonth cs
  let cs ← expectChar '-' cs
  let (d, cs) ← parseDay cs
  let cs ← skipSpaces1 cs
  let (h, cs) ← parseHour cs
  let cs ← expectChar ':' cs
  let (mi, cs) ← parseMinute cs
  let cs ← expectChar ':' cs
  let (sec, cs) ← parseSecond cs
  pure ({ year := y, month := mo, day := d, hour := h, minute := mi, second := sec }, cs)

/-- Leap year rule used by the datetime constructor. -/
def isLeapYear (y : Nat) : Bool :=
  if y % 4 = 0 ∧ (y % 100 ≠ 0 ∨ y % 400 = 0) then true else false

/-- Days in a month per the datetime constructor. -/
def daysInMonth (y m : Nat) : Nat :=
  if m = 2 then (if isLeapYear y then 29 else 28)
  else if m = 4 ∨ m = 6 ∨ m = 9 ∨ m = 11 then 30
  else 31

/-- The strptime format string both source files use. -/
def strptimeFormat : String := "%Y-%m-%d %H:%M:%S"

/-- datetime.strptime(s, "%Y-%m-%d %H:%M:%S"): regex match, leftover check,
then the datetime constructor range checks, with the corresponding
ValueError messages. -/
def parseTimestamp (s : String) : Except String DateTime :=
  match parseFields s.data with
  | none =>
    .error ("time data " ++ pyRepr s ++ " does not match format " ++ pyRepr strptimeFormat)
  | some (dt, rest) =>
    if !rest.isEmpty then .error ("unconverted data remains: " ++ String.mk rest)
    else if dt.year = 0 then .error "year 0 is out of range"
    else if dt.day > daysInMonth dt.year dt.month then .error "day is out of range for month"
    else if dt.second > 59 then .error "second must be in 0..59"
    else .ok dt

/-- Modelled from the spec: the documented fixed textual timestamp format
"YYYY-MM-DD HH:MM:SS" read literally, as the claims state it: four digits,
a hyphen, two digits, a hyphen, two digits, one space, then three two-digit
groups separated by colons.  This definition follows the words of the
specification (section 4.2 and section 8) and exists to compare the spec
format with the parser the code actually uses. -/
def matchesSpecTimestampFormat (s : String) : Bool :=
  match s.data with
  | [y1, y2, y3, y4, a, m1, m2, b, d1, d2, c, h1, h2, e, n1, n2, f, s1, s2] =>
    y1.isDigit && y2.isDigit && y3.isDigit && y4.isDigit && a == '-' &&
    m1.isDigit && m2.isDigit && b == '-' && d1.isDigit && d2.isDigit &&
    c == ' ' && h1.isDigit && h2.isDigit && e == ':' && n1.isDigit &&
    n2.isDigit && f == ':' && s1.isDigit && s2.isDigit
  | _ => false

/-! ## json.loads on the inner extraction payload

Both bindings call json.loads on the string found under the "response" key
of the service reply (main.py line 67, ollama_cal_gtk.py line 82), expecting
a flat JSON object with string values (the code annotates the result as
Dict[str, str]).  jsonLoadsDict models json.loads on exactly that fragment
of JSON: a (possibly empty) object of string keys and string values, with
JSON whitespace and string escapes, later duplicate keys overwriting earlier
ones as in a Python dict, and the whole input consumed.  Inputs outside this
fragment are reported as decode failures. -/

/-- JSON whitespace: space, tab, newline, carriage return. -/
def jsonSkipWs (cs : List Char) : List Char :=
  cs.dropWhile (fun c => c == ' ' || c == '\t' || c == '\n' || c == '\r')

/-- JSON simple escape characters. -/
def escapeChar : Char → Option Char
  | '"' => some '"'
  | '\\' => some '\\'
  | '/' => some '/'
  | 'b' => some (Char.ofNat 8)
  | 'f' => some (Char.ofNat 12)
  | 'n' => some '\n'
  | 'r' => some '\r'
  | 't' => some '\t'
  | _ => none

/-- Value of a hexadecimal digit. -/
def hexVal (c : Char) : Option Nat :=
  if charBetween '0' '9' c then some (digitVal c)
  else if charBetween 'a' 'f' c then some (c.toNat - 87)
  else if charBetween 'A' 'F' c then some (c.toNat - 55)
  else none

/-- Four hexadecimal digits of a \u escape. -/
def hex4 (a b c d : Char) : Option Nat := do
  let va ← hexVal a
  let vb ← hexVal b
  let vc ← hexVal c
  let vd ← hexVal d
  pure (4096 * va + 256 * vb + 16 * vc + vd)

/-- Body of a JSON string after its opening quote: the decoded characters
and the input following the closing quote.  Raw control characters are
rejected as json.loads does in strict mode; surrogate code points from \u
escapes are outside the model. -/
def parseJStringChars : List Char → Option (List Char × List Char)
  | [] => none
  | '"' :: rest => some ([], rest)
  | '\\' :: 'u' :: a :: b :: c :: d :: rest => do
    let n ← hex4 a b c d
    if n < 55296 || 57343 < n then
      let (s, r) ← parseJStringChars rest
      pure (Char.ofNat n :: s, r)
    else none
  | '\\' :: e :: rest => do
    let c ← escapeChar e
    let (s, r) ← parseJStringChars rest
    pure (c :: s, r)
  | c :: rest =>
    if c.toNat < 32 then none
    else do
      let (s, r) ← parseJStringChars rest
      pure (c :: s, r)

/-- Insert a key/value pair with Python dict semantics: a later value for an
existing key overwrites in place, a new key is appended. -/
def updateAssoc (acc : List (String × String)) (k v : String) : List (String × String) :=
  match acc with
  | [] => [(k, v)]
  | (k2, v2) :: rest => if k2 == k then (k2, v) :: rest else (k2, v2) :: updateAssoc rest k v

/-- Members of a JSON object after its opening brace, given at least one
member is present: string key, colon, string value, then a comma and more
members or the closing brace. -/
def parseMembers : Nat → List (String × String) → List Char → Option (List (String × String) × List Char)
  | 0, _, _ => none
  | fuel + 1, acc, cs =>
    match jsonSkipWs cs with
    | '"' :: cs2 => do
      let (kcs, cs3) ← parseJStringChars cs2
      match jsonSkipWs cs3 with
      | ':' :: cs4 =>
        match jsonSkipWs cs4 with
        | '"' :: cs5 => do
          let (vcs, cs6) ← parseJStringChars cs5
          let acc2 := updateAssoc acc (String.mk kcs) (String.mk vcs)
          match jsonSkipWs cs6 with
          | ',' :: cs7 => parseMembers fuel acc2 cs7
          | '\x7d' :: cs7 => some (acc2, cs7)
          | _ => none
        | _ => none
      | _ => none
    | _ => none

/-- An extracted event record: the Python dict of string fields produced by
json.loads on the inner payload. -/
abbrev EventData := List (String × String)

/-- Python dict lookup d[k] / d.get(k): the value stored under k. -/
def getKey (d : EventData) (k : String) : Option String :=
  (d.find? (fun p => p.1 == k)).map (fun p => p.2)

/-- Python membership test k in d. -/
def hasKey (d : EventData) (k : String) : Bool := (getKey d k).isSome

/-- The required-fields test both bindings perform:
all(k in event_data for k in ["summary", "start", "end"])
(main.py line 82, ollama_cal_gtk.py line 84). -/
def hasRequiredFields (d : EventData) : Bool :=
  hasKey d "summary" && hasKey d "start" && hasKey d "end"

/-- json.loads restricted to flat string-valued objects: optional
whitespace, an object, optional whitespace, end of input. -/
def jsonLoadsDict (s : String) : Option EventData :=
  match jsonSkipWs s.data with
  | '\x7b' :: cs =>
    match jsonSkipWs cs with
    | '\x7d' :: rest => if (jsonSkipWs rest).isEmpty then some [] else none
    | _ =>
      match parseMembers (s.length + 1) [] cs with
      | some (d, rest) => if (jsonSkipWs rest).isEmpty then some d else none
      | none => none
  | _ => none

/-- json.dumps(d, indent=2) on a flat string dict, as used to display the
parsed record (main.py line 186, ollama_cal_gtk.py line 327): keys in
insertion order, two-space indent, quotes and backslashes escaped. -/
def jsonEscape (s : String) : String :=
  String.join (s.data.map (fun c =>
    if c == '"' then "\\\"" else if c == '\\' then "\\\\" else String.singleton c))

/-- Rendering of one key/value member of json.dumps output. -/
def jsonDumpsEntry (p : String × String) : String :=
  "  \"" ++ jsonEscape p.1 ++ "\": \"" ++ jsonEscape p.2 ++ "\""

/-- json.dumps(d, indent=2) on the flat string dict. -/
def jsonDumps (d : EventData) : String :=
  if d.isEmpty then "\x7b\x7d"
  else "\x7b\n" ++ String.intercalate ",\n" (d.map jsonDumpsEntry) ++ "\n\x7d"

/-! ## Configuration, external worlds and reified effects -/

/-- The "ollama" section of config.json: service endpoint and model name. -/
structure OllamaConfig where
  url : String
  model : String
deriving DecidableEq, Repr

/-- The "caldav" section of config.json.  The code reads calendar_name with
caldav_config.get("calendar_name", ""); the field here is that configured
(or defaulted) target name. -/
structure CaldavConfig where
  url : String
  username : String
  password : String
  calendar_name : String
deriving DecidableEq, Repr

/-- A JSON value of the outgoing request payload (only strings and booleans
occur in the payload the code builds). -/
inductive PyVal where
  | str (s : String)
  | bool (b : Bool)
deriving DecidableEq, Repr

/-- The extraction service reply, as seen through the error handling of the
code: a transport failure (connection error, timeout, or a non-2xx status
turned into an exception by raise_for_status), a 2xx reply whose body is not
JSON, or a 2xx reply whose body is a JSON object, carrying the string value
of its "response" key when that key is present.  Replies whose body is a
non-object or whose "response" value is not a string would crash outside the
modelled error handling and are outside the claims. -/
inductive ServiceReply where
  | transportError (msg : String)
  | badOuterJson
  | okJson (responseField : Option String)
deriving DecidableEq, Repr

/-- The CalDAV side of the world for one publish attempt: whether the
client/principal/calendars calls succeed, the display names of the visible
collections, and whether save_event succeeds, with the exception texts. -/
structure CaldavWorld where
  connectOk : Bool
  connectErrMsg : String
  calendarNames : List String
  saveOk : Bool
  saveErrMsg : String
deriving DecidableEq, Repr

/-- The calendar object the code assembles as a vobject vevent: summary,
dtstart, dtend, a dtstamp taken from the clock at build time, a uid from
uuid4, and the three optional properties.  An Option none means the property
was not added at all. -/
structure CalendarObject where
  summary : String
  dtstart : DateTime
  dtend : DateTime
  dtstamp : Nat
  uid : Nat
  location : Option String
  description : Option String
  rrule : Option String
deriving DecidableEq, Repr

/-- Network calls the pipeline performs, in order. -/
inductive Effect where
  | ollamaPost (url : String) (payload : List (String × PyVal))
  | caldavConnect (url username : String)
  | caldavSave (calendarName : String) (obj : CalendarObject)
deriving DecidableEq, Repr

/-- Does an effect target the calendar service? -/
def isCaldavEffect : Effect → Bool
  | .ollamaPost _ _ => false
  | .caldavConnect _ _ => true
  | .caldavSave _ _ => true

/-- Is an effect the outbound extraction request? -/
def isOllamaPost : Effect → Bool
  | .ollamaPost _ _ => true
  | _ => false

/-- Number of connection attempts to the calendar service in a trace. -/
def connectCount : List Effect → Nat
  | [] => 0
  | .caldavConnect _ _ :: t => connectCount t + 1
  | _ :: t => connectCount t

/-! ## The extraction request (shared by both bindings)

main.py lines 31-58 and ollama_cal_gtk.py lines 45-70 build the identical
system prompt (an f-string embedding the current wall-clock time) and the
identical payload, and POST it to {url}/api/generate. -/

/-- The system prompt f-string, with the current time spliced in. -/
def system_prompt (currentTime : String) : String :=
  "\n    You are an expert assistant that converts natural language text into a structured JSON object\n    for a calendar event. The current date and time is " ++ currentTime ++ ".\n    Analyze the user\x27s text and extract the event details.\n    \n    The JSON object must have the following structure:\n    - \"summary\": (string) The title or name of the event.\n    - \"start\": (string) The start time in \"YYYY-MM-DD HH:MM:SS\" format.\n    - \"end\": (string) The end time in \"YYYY-MM-DD HH:MM:SS\" format. If no duration is specified, assume 1 hour.\n    - \"location\": (string, optional) The event\x27s location.\n    - \"description\": (string, optional) A detailed description of the event.\n    - \"rrule\": (string, optional) A recurrence rule (e.g., \"FREQ=WEEKLY;BYDAY=MO\" for every Monday).\n    \n    If a value is not present in the text, omit the key from the JSON object.\n    Always respond with ONLY the JSON object and nothing else.\n    "

/-- The JSON body of the POST: exactly the five keys the code sets. -/
def ollamaPayload (model system prompt : String) : List (String × PyVal) :=
  [("model", PyVal.str model), ("system", PyVal.str system),
   ("prompt", PyVal.str prompt), ("format", PyVal.str "json"),
   ("stream", PyVal.bool false)]

/-- The single outbound request of one extraction call. -/
def ollamaRequestEffect (text : String) (oc : OllamaConfig) (nowStr : String) : Effect :=
  Effect.ollamaPost (oc.url ++ "/api/generate")
    (ollamaPayload oc.model (system_prompt nowStr) text)

/-- get_event_details_from_llm of main.py (lines 25-75): issue the one POST;
on a transport error or a JSON decode failure at either layer print an error
and return None; otherwise json.loads the "response" string, which defaults
to the empty object when the key is absent. -/
def get_event_details_from_llm (text : String) (oc : OllamaConfig) (nowStr : String)
    (reply : ServiceReply) : Option EventData × List Effect :=
  let eff := [ollamaRequestEffect text oc nowStr]
  match reply with
  | .transportError _ => (none, eff)
  | .badOuterJson => (none, eff)
  | .okJson rf => (jsonLoadsDict (rf.getD "\x7b\x7d"), eff)

/-! ## The event object builder (shared vevent assembly)

main.py lines 87-110 and ollama_cal_gtk.py lines 100-120 populate the vevent
identically: summary, the two parsed datetimes, dtstamp from datetime.now(),
uid from uuid4(), then each optional property only if its key is in the
record.  The clock and the fresh uuid are explicit parameters. -/

/-- Assembly of the vevent from a record whose summary and parsed dates are
already in hand. -/
def buildVevent (d : EventData) (summ : String) (sdt edt : DateTime)
    (uid now : Nat) : CalendarObject :=
  { summary := summ
    dtstart := sdt
    dtend := edt
    dtstamp := now
    uid := uid
    location := getKey d "location"
    description := getKey d "description"
    rrule := getKey d "rrule" }

/-- The content fields of a calendar object: everything except the generated
identifier and the creation stamp. -/
def contentFields (o : CalendarObject) :
    String × DateTime × DateTime × Option String × Option String × Option String :=
  (o.summary, o.dtstart, o.dtend, o.location, o.description, o.rrule)

/-! ## create_caldav_event of main.py (lines 78-143) -/

/-- Outcome of one create_caldav_event call, mirroring its print-and-return
exits: the missing-required-fields bailout, the date ValueError handler, the
calendar-not-found bailout (carrying the configured name and the available
display names it prints), the CalDAV exception handler, and success. -/
inductive LineCreateOutcome where
  | missingFields
  | dateError (msg : String)
  | calendarNotFound (name : String) (available : List String)
  | caldavError (msg : String)
  | created (summary : String)
deriving DecidableEq, Repr

/-- create_caldav_event: check the three required keys, parse start then end
(one try block, start first), assemble the vevent, then connect, select the
collection whose display name equals the configured name, and save.  The
effect list holds the calendar-service calls actually made. -/
def create_caldav_event (d : EventData) (cc : CaldavConfig) (uid now : Nat)
    (world : CaldavWorld) : LineCreateOutcome × List Effect :=
  match getKey d "summary", getKey d "start", getKey d "end" with
  | some summ, some s, some en =>
    (match parseTimestamp s with
     | .error e => (.dateError ("Error: Could not parse date from LLM response. " ++ e), [])
     | .ok sdt =>
       match parseTimestamp en with
       | .error e => (.dateError ("Error: Could not parse date from LLM response. " ++ e), [])
       | .ok edt =>
         let obj := buildVevent d summ sdt edt uid now
         if !world.connectOk then
           (.caldavError ("An error occurred with the CalDAV server: " ++ world.connectErrMsg),
            [Effect.caldavConnect cc.url cc.username])
         else
           match world.calendarNames.find? (fun n2 => n2 == cc.calendar_name) with
           | none =>
             (.calendarNotFound cc.calendar_name world.calendarNames,
              [Effect.caldavConnect cc.url cc.username])
           | some cal =>
             if world.saveOk then
               (.created summ,
                [Effect.caldavConnect cc.url cc.username, Effect.caldavSave cal obj])
             else
               (.caldavError ("An error occurred with the CalDAV server: " ++ world.saveErrMsg),
                [Effect.caldavConnect cc.url cc.username, Effect.caldavSave cal obj]))
  | _, _, _ => (.missingFields, [])

/-! ## The line-mode controller: main of main.py (lines 146-195)

The controller states are the ones of the specification.  They are assigned
to the code points of main as follows: Idle at entry; Extracting while
get_event_details_from_llm runs; AwaitingConfirmation at the y/n prompt
after the record is printed; Publishing while create_caldav_event runs; Done
after the success message.  When main returns with no operation in flight
and nothing retained (any non-success exit), the controller is back at Idle;
main holds the record only in a local variable, so nothing survives the
return.  Configuration loading and stdin reading (lines 148-176) precede the
modelled fragment and are out of claim scope; the KeyboardInterrupt handler
around the prompt is likewise unmodelled, the answer being an ordinary
string here. -/

/-- Controller states of the interaction state machine. -/
inductive CtrlState where
  | Idle
  | Extracting
  | AwaitingConfirmation
  | Publishing
  | Done
deriving DecidableEq, Repr

/-- Final outcome of one main run. -/
inductive LineOutcome where
  | noInput
  | noDetails
  | cancelled
  | createResult (r : LineCreateOutcome)
deriving DecidableEq, Repr

/-- Result of one run of main: the controller states visited in order, the
network effects in order, and the outcome. -/
structure MainResult where
  states : List CtrlState
  effects : List Effect
  outcome : LineOutcome
deriving DecidableEq, Repr

/-- The confirmation test of main.py line 189-190:
input(...).lower().strip() followed by .startswith("y"). -/
def confirmIsYes (answer : String) : Bool :=
  pyStartsWith (pyStrip (pyLower answer)) "y"

/-- main, from the point where the input text is assembled: bail out on
blank input; extract; treat a falsy result (None or the empty dict) as "No
Event Details"; otherwise display the record and prompt; on an affirmative
answer run create_caldav_event, else cancel. -/
def main (text : String) (oc : OllamaConfig) (cc : CaldavConfig) (nowStr : String)
    (reply : ServiceReply) (answer : String) (uid now : Nat)
    (world : CaldavWorld) : MainResult :=
  if (pyStrip text).isEmpty then
    { states := [CtrlState.Idle], effects := [], outcome := .noInput }
  else
    let r := get_event_details_from_llm text oc nowStr reply
    match r.1 with
    | none =>
      { states := [CtrlState.Idle, CtrlState.Extracting, CtrlState.Idle],
        effects := r.2, outcome := .noDetails }
    | some d =>
      if d.isEmpty then
        { states := [CtrlState.Idle, CtrlState.Extracting, CtrlState.Idle],
          effects := r.2, outcome := .noDetails }
      else if confirmIsYes answer then
        let c := create_caldav_event d cc uid now world
        { states := [CtrlState.Idle, CtrlState.Extracting, CtrlState.AwaitingConfirmation,
                     CtrlState.Publishing] ++
            (match c.1 with
             | .created _ => [CtrlState.Done]
             | _ => [CtrlState.Idle]),
          effects := r.2 ++ c.2,
          outcome := .createResult c.1 }
      else
        { states := [CtrlState.Idle, CtrlState.Extracting, CtrlState.AwaitingConfirmation,
                     CtrlState.Idle],
          effects := r.2, outcome := .cancelled }

/-! ## The graphical binding: ollama_cal_gtk.py

The window object is modelled as a state record of the widget properties the
handlers read and write, and each signal handler (with the asynchronous
worker it schedules run to completion, since only one operation is ever in
flight) as a function from the state and the external world to the new
state, the network effects, and the user-visible toasts and dialogs. -/

namespace Gtk

/-- The message of the ValueError raised when required fields are absent
(ollama_cal_gtk.py lines 85-87). -/
def missingFieldsMessage : String :=
  "LLM response is missing required fields (summary, start, end)."

/-- A representative json.JSONDecodeError text for the inner payload; the
exact text varies with the malformed input and no claim depends on it. -/
def jsonDecodeMessage : String := "Expecting value: line 1 column 1 (char 0)"

/-- Failure of the asynchronous extractor, as re-raised by its two except
clauses: a ConnectionError for aiohttp.ClientError, a ValueError wrapping
JSON decode failures and the missing-fields check. -/
inductive ExtractErr where
  | connection (msg : String)
  | value (msg : String)
deriving DecidableEq, Repr

/-- str(e) of an extractor failure, as interpolated into the toast. -/
def extractErrStr : ExtractErr → String
  | .connection m => m
  | .value m => m

/-- get_event_details_from_llm of ollama_cal_gtk.py (lines 40-92): the same
single POST, then json.loads of the "response" string (defaulting to the
empty object), then the required-fields check, raising rather than
returning None on every failure. -/
def get_event_details_from_llm (text : String) (oc : OllamaConfig) (nowStr : String)
    (reply : ServiceReply) : Except ExtractErr EventData × List Effect :=
  let res : Except ExtractErr EventData :=
    match reply with
    | .transportError m => .error (.connection ("Error connecting to Ollama server: " ++ m))
    | .badOuterJson => .error (.value ("Error processing LLM response: " ++ jsonDecodeMessage))
    | .okJson rf =>
      match jsonLoadsDict (rf.getD "\x7b\x7d") with
      | none => .error (.value ("Error processing LLM response: " ++ jsonDecodeMessage))
      | some d =>
        if hasRequiredFields d then .ok d
        else .error (.value ("Error processing LLM response: " ++ missingFieldsMessage))
  (res, [ollamaRequestEffect text oc nowStr])

/-- _blocking_caldav_create of ollama_cal_gtk.py (lines 95-151): assemble
the vevent (no required-fields check here; a missing summary/start/end key
raises an uncaught KeyError, the Except.error case), parse start then end
returning (False, message) on ValueError, then connect, select the
collection by display name, and save, returning (success, message). -/
def blocking_caldav_create (d : EventData) (cc : CaldavConfig) (uid now : Nat)
    (world : CaldavWorld) : Except String (Bool × String) × List Effect :=
  match getKey d "summary" with
  | none => (.error "KeyError: \x27summary\x27", [])
  | some summ =>
    match getKey d "start" with
    | none => (.error "KeyError: \x27start\x27", [])
    | some s =>
      match parseTimestamp s with
      | .error e => (.ok (false, "Could not parse date from LLM response: " ++ e), [])
      | .ok sdt =>
        match getKey d "end" with
        | none => (.error "KeyError: \x27end\x27", [])
        | some en =>
          match parseTimestamp en with
          | .error e => (.ok (false, "Could not parse date from LLM response: " ++ e), [])
          | .ok edt =>
            let obj := buildVevent d summ sdt edt uid now
            if !world.connectOk then
              (.ok (false, "A CalDAV error occurred: " ++ world.connectErrMsg),
               [Effect.caldavConnect cc.url cc.username])
            else
              match world.calendarNames.find? (fun n2 => n2 == cc.calendar_name) with
              | none =>
                (.ok (false, "Calendar \x27" ++ cc.calendar_name ++ "\x27 not found. Available: "
                      ++ pyListRepr world.calendarNames),
                 [Effect.caldavConnect cc.url cc.username])
              | some cal =>
                if world.saveOk then
                  (.ok (true, "Event \x27" ++ summ ++ "\x27 created successfully!"),
                   [Effect.caldavConnect cc.url cc.username, Effect.caldavSave cal obj])
                else
                  (.ok (false, "A CalDAV error occurred: " ++ world.saveErrMsg),
                   [Effect.caldavConnect cc.url cc.username, Effect.caldavSave cal obj])

/-- The widget state of MainWindow that the handlers touch. -/
structure GtkState where
  eventDetails : Option EventData
  textBuffer : String
  resultsVisible : Bool
  jsonLabel : String
  spinnerVisible : Bool
  textEditable : Bool
  parseSensitive : Bool
  confirmSensitive : Bool
deriving DecidableEq, Repr

/-- The window state right after construction. -/
def initialState : GtkState :=
  { eventDetails := none, textBuffer := "", resultsVisible := false, jsonLabel := ""
    spinnerVisible := false, textEditable := true, parseSensitive := true
    confirmSensitive := true }

/-- User-visible notifications the handlers emit. -/
inductive UiMsg where
  | toast (msg : String)
  | dialog (title body : String)
deriving DecidableEq, Repr

/-- set_busy of MainWindow (lines 283-296): toggle the spinner and text
editability; when creating, gate the parse and confirm controls; otherwise
gate the parse control and hide the results area on entering busy. -/
def set_busy (st : GtkState) (busy is_creating : Bool) : GtkState :=
  let st1 := { st with spinnerVisible := busy, textEditable := !busy }
  if is_creating then
    { st1 with parseSensitive := !busy, confirmSensitive := !busy }
  else
    let st2 := { st1 with parseSensitive := !busy }
    if busy then { st2 with resultsVisible := false } else st2

/-- _reset_ui of MainWindow (lines 298-304): drop the record, clear the text
and label, hide the results, re-enable parsing. -/
def reset_ui (st : GtkState) : GtkState :=
  { st with eventDetails := none, textBuffer := "", resultsVisible := false
            jsonLabel := "", parseSensitive := true }

/-- on_clear_clicked (lines 308-309): reset the UI; no network call. -/
def on_clear_clicked (st : GtkState) : GtkState × List Effect × List UiMsg :=
  (reset_ui st, [], [])

/-- do_parse_work (lines 321-336): enter busy (hiding the results), run the
extractor, on success store the record, render it and show the results, on
any exception toast "Parsing Failed: ...", finally leave busy. -/
def do_parse_work (st : GtkState) (text : String) (oc : OllamaConfig) (nowStr : String)
    (reply : ServiceReply) : GtkState × List Effect × List UiMsg :=
  let st1 := set_busy st true false
  let r := get_event_details_from_llm text oc nowStr reply
  match r.1 with
  | .ok d =>
    let st2 := { st1 with eventDetails := some d, jsonLabel := jsonDumps d,
                          resultsVisible := true }
    (set_busy st2 false false, r.2, [])
  | .error e =>
    (set_busy st1 false false, r.2, [UiMsg.toast ("Parsing Failed: " ++ extractErrStr e)])

/-- on_parse_clicked (lines 311-319): toast on blank input, otherwise
schedule do_parse_work on the buffer text. -/
def on_parse_clicked (st : GtkState) (oc : OllamaConfig) (nowStr : String)
    (reply : ServiceReply) : GtkState × List Effect × List UiMsg :=
  if (pyStrip st.textBuffer).isEmpty then
    (st, [], [UiMsg.toast "Please enter an event description."])
  else do_parse_work st st.textBuffer oc nowStr reply

/-- do_create_work (lines 344-360): enter busy in creating mode, run the
blocking CalDAV helper off-thread, on success toast the message and reset
the UI, on a reported failure or an escaped exception show the error dialog
without resetting, finally leave busy. -/
def do_create_work (st : GtkState) (d : EventData) (cc : CaldavConfig) (uid now : Nat)
    (world : CaldavWorld) : GtkState × List Effect × List UiMsg :=
  let st1 := set_busy st true true
  let r := blocking_caldav_create d cc uid now world
  match r.1 with
  | .ok (true, msg) => (set_busy (reset_ui st1) false true, r.2, [UiMsg.toast msg])
  | .ok (false, msg) =>
    (set_busy st1 false true, r.2, [UiMsg.dialog "Event Creation Failed" msg])
  | .error emsg =>
    (set_busy st1 false true, r.2, [UiMsg.dialog "Event Creation Failed" emsg])

/-- on_create_clicked (lines 338-342): do nothing on a falsy record (absent
or empty), otherwise schedule do_create_work on the stored record. -/
def on_create_clicked (st : GtkState) (cc : CaldavConfig) (uid now : Nat)
    (world : CaldavWorld) : GtkState × List Effect × List UiMsg :=
  match st.eventDetails with
  | none => (st, [], [])
  | some d => if d.isEmpty then (st, [], []) else do_create_work st d cc uid now world

/-- The controller state a quiescent window presents: AwaitingConfirmation
when the parsed record is displayed with its confirm controls, Idle
otherwise. -/
def phase (st : GtkState) : CtrlState :=
  if st.resultsVisible then CtrlState.AwaitingConfirmation else CtrlState.Idle

end Gtk

/-! ## Concrete fixtures used by witnesses and counterexamples -/

/-- A sample extraction-service configuration. -/
def oc0 : OllamaConfig := { url := "http://localhost:11434", model := "llama3" }

/-- A sample calendar configuration targeting the collection "Work". -/
def cc0 : CaldavConfig :=
  { url := "https://cal.example/dav", username := "alice", password := "pw"
    calendar_name := "Work" }

/-- A calendar world where everything succeeds and "Work" exists. -/
def worldOk : CaldavWorld :=
  { connectOk := true, connectErrMsg := "", calendarNames := ["Home", "Work", "Travel"]
    saveOk := true, saveErrMsg := "" }

/-- A calendar world where save_event raises "boom". -/
def worldSaveFail : CaldavWorld :=
  { connectOk := true, connectErrMsg := "", calendarNames := ["Home", "Work", "Travel"]
    saveOk := false, saveErrMsg := "boom" }

/-- A well-formed inner payload string for a complete event. -/
def goodPayload : String :=
  "\x7b\"summary\": \"Team sync\", \"start\": \"2024-06-02 10:00:00\", \"end\": \"2024-06-02 10:30:00\"\x7d"

/-- The record goodPayload decodes to. -/
def evGood : EventData :=
  [("summary", "Team sync"), ("start", "2024-06-02 10:00:00"), ("end", "2024-06-02 10:30:00")]

/-- A service reply carrying goodPayload. -/
def replyGood : ServiceReply := ServiceReply.okJson (some goodPayload)

example : jsonLoadsDict goodPayload = some evGood := by decide
example : jsonLoadsDict "\x7b\x7d" = some [] := by decide
example : parseTimestamp "2024-06-02 10:00:00" =
    .ok { year := 2024, month := 6, day := 2, hour := 10, minute := 0, second := 0 } := by decide
example : parseTimestamp "2024-6-2 9:5:3" =
    .ok { year := 2024, month := 6, day := 2, hour := 9, minute := 5, second := 3 } := by decide
example : parseTimestamp "2024-06- 2 10:00:00" =
    .ok { year := 2024, month := 6, day := 2, hour := 10, minute := 0, second := 0 } := by decide
example : parseTimestamp "bad" =
    .error "time data \x27bad\x27 does not match format \x27%Y-%m-%d %H:%M:%S\x27" := by decide
example : parseTimestamp "2024-02-30 10:00:00" = .error "day is out of range for month" := by decide
example : parseTimestamp "2024-06-02 10:00:00x" = .error "unconverted data remains: x" := by decide
example : confirmIsYes " YES please " = true := by decide
example : confirmIsYes "" = false := by decide
example : confirmIsYes "n" = false := by decide
example :
    (main "Team sync tomorrow" oc0 cc0 "2024-06-01 09:00:00" replyGood "y" 1 2 worldOk).outcome
      = .createResult (.created "Team sync") := by decide
example : pyListRepr ["Home", "Work"] = "[\x27Home\x27, \x27Work\x27]" := by decide
example :
    (Gtk.blocking_caldav_create evGood cc0 1 2 worldSaveFail).1
      = .ok (false, "A CalDAV error occurred: boom") := by decide
example :
    (Gtk.do_create_work { Gtk.initialState with eventDetails := some evGood, resultsVisible := true }
        evGood cc0 1 2 worldSaveFail).1.eventDetails = some evGood := by decide
example :
    (Gtk.on_parse_clicked { Gtk.initialState with textBuffer := "meet" } oc0 "now"
        (ServiceReply.okJson none)).2.2
      = [Gtk.UiMsg.toast ("Parsing Failed: Error processing LLM response: "
          ++ Gtk.missingFieldsMessage)] := by decide

/-! ## Helper lemmas shared by the claim theorems -/

/-- Lookup of a key in the outgoing payload. -/
def getPayloadVal (l : List (String × PyVal)) (k : String) : Option PyVal :=
  (l.find? (fun p => p.1 == k)).map (fun p => p.2)

/-- Associativity of string concatenation, used to normalise the nested
f-string message prefixes. -/
theorem str_append_assoc (a b c : String) : a ++ b ++ c = a ++ (b ++ c) := by
  apply String.ext
  simp [List.append_assoc]

/-- Both extractors issue exactly the one POST, whatever the reply. -/
theorem extract_effects (text : String) (oc : OllamaConfig) (nowStr : String)
    (reply : ServiceReply) :
    (get_event_details_from_llm text oc nowStr reply).2 = [ollamaRequestEffect text oc nowStr] ∧
    (Gtk.get_event_details_from_llm text oc nowStr reply).2
      = [ollamaRequestEffect text oc nowStr] := by
  constructor <;> cases reply <;> rfl

/-- When a required key is absent, create_caldav_event bails out before any
date parsing, building, or calendar call. -/
theorem create_missing {d : EventData} {cc : CaldavConfig} {uid now : Nat}
    {world : CaldavWorld} (h : hasRequiredFields d = false) :
    create_caldav_event d cc uid now world = (.missingFields, []) := by
  unfold create_caldav_event
  cases hs : getKey d "summary" with
  | none => rfl
  | some summ =>
    cases hst : getKey d "start" with
    | none => rfl
    | some s =>
      cases he : getKey d "end" with
      | none => rfl
      | some en =>
        exfalso
        simp [hasRequiredFields, hasKey, hs, hst, he] at h

/-- The first-match search of the target calendar finds nothing exactly when
the configured name is not among the display names. -/
theorem find_name_none_iff (l : List String) (name : String) :
    l.find? (fun n2 => n2 == name) = none ↔ name ∉ l := by
  rw [List.find?_eq_none]
  constructor
  · intro h hmem
    exact h name hmem (by simp)
  · intro h x hx hbeq
    rw [beq_iff_eq] at hbeq
    exact h (hbeq ▸ hx)

/-- Whatever the search returns was selected by exact display-name equality. -/
theorem find_name_some (l : List String) (name cal : String)
    (h : l.find? (fun n2 => n2 == name) = some cal) : cal = name := by
  have := List.find?_some h
  rwa [beq_iff_eq] at this

/-- Every run of create_caldav_event connects to the calendar server at most
once: there is no retry inside a run. -/
theorem create_connect_le_one (d : EventData) (cc : CaldavConfig) (uid now : Nat)
    (world : CaldavWorld) :
    connectCount (create_caldav_event d cc uid now world).2 ≤ 1 := by
  unfold create_caldav_event
  repeat' split
  all_goals simp [connectCount]

/-! ## Claim C8 -/

/-- C8: every extraction call, in both bindings, issues exactly one HTTP
POST to url/api/generate whose JSON body has exactly the keys model, system,
prompt, format (value "json") and stream (value false); a single attempt
with no retry and no calendar-service effect, whatever the reply. -/
theorem C8_single_post_request (text : String) (oc : OllamaConfig) (nowStr : String)
    (reply : ServiceReply) (model sys prm : String) :
    (get_event_details_from_llm text oc nowStr reply).2
        = [Effect.ollamaPost (oc.url ++ "/api/generate")
            (ollamaPayload oc.model (system_prompt nowStr) text)] ∧
    (Gtk.get_event_details_from_llm text oc nowStr reply).2
        = [Effect.ollamaPost (oc.url ++ "/api/generate")
            (ollamaPayload oc.model (system_prompt nowStr) text)] ∧
    (get_event_details_from_llm text oc nowStr reply).2.length = 1 ∧
    (Gtk.get_event_details_from_llm text oc nowStr reply).2.length = 1 ∧
    (get_event_details_from_llm text oc nowStr reply).2.filter isCaldavEffect = [] ∧
    (ollamaPayload model sys prm).map Prod.fst
        = ["model", "system", "prompt", "format", "stream"] ∧
    getPayloadVal (ollamaPayload model sys prm) "format" = some (PyVal.str "json") ∧
    getPayloadVal (ollamaPayload model sys prm) "stream" = some (PyVal.bool false) := by
  obtain ⟨h1, h2⟩ := extract_effects text oc nowStr reply
  refine ⟨h1, h2, ?_, ?_, ?_, rfl, rfl, rfl⟩ <;>
    simp [h1, h2, ollamaRequestEffect, isCaldavEffect]

/-! ## Claim C9 -/

/-- C9: in the line-mode binding, once a non-empty record has been extracted
and displayed, publishing proceeds exactly when the prompt answer, after
lowercasing and stripping, starts with "y"; every other answer cancels with
no calendar-service call. -/
theorem C9_confirmation_criterion (text : String) (oc : OllamaConfig) (cc : CaldavConfig)
    (nowStr : String) (reply : ServiceReply) (answer : String) (uid now : Nat)
    (world : CaldavWorld) (d : EventData)
    (htext : (pyStrip text).isEmpty = false)
    (hext : (get_event_details_from_llm text oc nowStr reply).1 = some d)
    (hne : d.isEmpty = false) :
    (confirmIsYes answer = pyStartsWith (pyStrip (pyLower answer)) "y") ∧
    (CtrlState.Publishing ∈ (main text oc cc nowStr reply answer uid now world).states
        ↔ confirmIsYes answer = true) ∧
    (confirmIsYes answer = false →
      (main text oc cc nowStr reply answer uid now world).outcome = .cancelled ∧
      (main text oc cc nowStr reply answer uid now world).effects.filter isCaldavEffect = [] ∧
      connectCount (main text oc cc nowStr reply answer uid now world).effects = 0) := by
  have heff := (extract_effects text oc nowStr reply).1
  refine ⟨rfl, ?_, ?_⟩
  · by_cases hy : confirmIsYes answer
    · simp [main, htext, hext, hne, hy]
    · simp [main, htext, hext, hne, hy]
  · intro hy
    simp [main, htext, hext, hne, hy, heff, ollamaRequestEffect, isCaldavEffect,
      connectCount]

/-- C9 witness: with the sample extraction in hand, the answer "n" cancels. -/
theorem C9_witness :
    ((pyStrip "meet").isEmpty = false ∧
     (get_event_details_from_llm "meet" oc0 "now" replyGood).1 = some evGood ∧
     evGood.isEmpty = false) ∧
    ((confirmIsYes "n" = pyStartsWith (pyStrip (pyLower "n")) "y") ∧
     (CtrlState.Publishing ∈ (main "meet" oc0 cc0 "now" replyGood "n" 1 2 worldOk).states
        ↔ confirmIsYes "n" = true) ∧
     (confirmIsYes "n" = false →
       (main "meet" oc0 cc0 "now" replyGood "n" 1 2 worldOk).outcome = .cancelled ∧
       (main "meet" oc0 cc0 "now" replyGood "n" 1 2 worldOk).effects.filter isCaldavEffect = [] ∧
       connectCount (main "meet" oc0 cc0 "now" replyGood "n" 1 2 worldOk).effects = 0)) :=
  ⟨⟨by decide, by decide, by decide⟩,
   C9_confirmation_criterion "meet" oc0 cc0 "now" replyGood "n" 1 2 worldOk evGood
     (by decide) (by decide) (by decide)⟩

/-! ## Claim C5 -/

/-- C5: cancelling at AwaitingConfirmation returns the controller to Idle
with the Publisher never invoked and zero calendar-service calls, in both
bindings (line mode: a non-affirmative answer; graphical: the Clear
button). -/
theorem C5_cancel_never_publishes (text : String) (oc : OllamaConfig) (cc : CaldavConfig)
    (nowStr : String) (reply : ServiceReply) (answer : String) (uid now : Nat)
    (world : CaldavWorld) (d : EventData) (st : Gtk.GtkState)
    (htext : (pyStrip text).isEmpty = false)
    (hext : (get_event_details_from_llm text oc nowStr reply).1 = some d)
    (hne : d.isEmpty = false)
    (hno : confirmIsYes answer = false) :
    (main text oc cc nowStr reply answer uid now world).states
        = [CtrlState.Idle, CtrlState.Extracting, CtrlState.AwaitingConfirmation,
           CtrlState.Idle] ∧
    (main text oc cc nowStr reply answer uid now world).outcome = .cancelled ∧
    (main text oc cc nowStr reply answer uid now world).effects.filter isCaldavEffect = [] ∧
    connectCount (main text oc cc nowStr reply answer uid now world).effects = 0 ∧
    Gtk.on_clear_clicked st = (Gtk.reset_ui st, [], []) ∧
    (Gtk.reset_ui st).eventDetails = none ∧
    Gtk.phase (Gtk.reset_ui st) = CtrlState.Idle := by
  have heff := (extract_effects text oc nowStr reply).1
  refine ⟨?_, ?_, ?_, ?_, rfl, rfl, rfl⟩ <;>
    simp [main, htext, hext, hne, hno, heff, ollamaRequestEffect, isCaldavEffect,
      connectCount]

/-- C5 witness: the sample record with answer "n", and a quiescent window
state, instantiate the cancellation theorem. -/
theorem C5_witness :
    ((pyStrip "meet").isEmpty = false ∧
     (get_event_details_from_llm "meet" oc0 "now" replyGood).1 = some evGood ∧
     evGood.isEmpty = false ∧ confirmIsYes "no" = false) ∧
    ((main "meet" oc0 cc0 "now" replyGood "no" 1 2 worldOk).states
        = [CtrlState.Idle, CtrlState.Extracting, CtrlState.AwaitingConfirmation,
           CtrlState.Idle] ∧
     (main "meet" oc0 cc0 "now" replyGood "no" 1 2 worldOk).outcome = .cancelled ∧
     (main "meet" oc0 cc0 "now" replyGood "no" 1 2 worldOk).effects.filter isCaldavEffect = [] ∧
     connectCount (main "meet" oc0 cc0 "now" replyGood "no" 1 2 worldOk).effects = 0 ∧
     Gtk.on_clear_clicked Gtk.initialState = (Gtk.reset_ui Gtk.initialState, [], []) ∧
     (Gtk.reset_ui Gtk.initialState).eventDetails = none ∧
     Gtk.phase (Gtk.reset_ui Gtk.initialState) = CtrlState.Idle) :=
  ⟨⟨by decide, by decide, by decide, by decide⟩,
   C5_cancel_never_publishes "meet" oc0 cc0 "now" replyGood "no" 1 2 worldOk evGood
     Gtk.initialState (by decide) (by decide) (by decide) (by decide)⟩

/-! ## Claim C4 -/

/-- C4: the Publisher selects a collection only by exact display-name
equality with the configured target, and when no collection matches it
fails with the calendar-not-found error carrying exactly the available
display names (structurally in line mode, rendered with the Python list
repr in the graphical message), after the one connect and with no save. -/
theorem C4_calendar_selection (d : EventData) (cc : CaldavConfig) (uid now : Nat)
    (world : CaldavWorld) (summ s en : String) (sdt edt : DateTime)
    (hs : getKey d "summary" = some summ) (hst : getKey d "start" = some s)
    (he : getKey d "end" = some en)
    (hps : parseTimestamp s = .ok sdt) (hpe : parseTimestamp en = .ok edt)
    (hconn : world.connectOk = true) :
    (world.calendarNames.find? (fun n2 => n2 == cc.calendar_name) = none ↔
        cc.calendar_name ∉ world.calendarNames) ∧
    (∀ cal, world.calendarNames.find? (fun n2 => n2 == cc.calendar_name) = some cal →
        cal = cc.calendar_name) ∧
    (world.calendarNames.find? (fun n2 => n2 == cc.calendar_name) = none →
      create_caldav_event d cc uid now world
          = (.calendarNotFound cc.calendar_name world.calendarNames,
             [Effect.caldavConnect cc.url cc.username]) ∧
      (Gtk.blocking_caldav_create d cc uid now world).1
          = .ok (false, "Calendar \x27" ++ cc.calendar_name ++ "\x27 not found. Available: "
                 ++ pyListRepr world.calendarNames) ∧
      (Gtk.blocking_caldav_create d cc uid now world).2
          = [Effect.caldavConnect cc.url cc.username]) := by
  refine ⟨find_name_none_iff _ _, fun cal h => find_name_some _ _ _ h, fun hf => ?_⟩
  refine ⟨?_, ?_, ?_⟩ <;>
    simp [create_caldav_event, Gtk.blocking_caldav_create, hs, hst, he, hps, hpe, hconn, hf]

/-- C4 witness: the target "Personal" among ["Home", "Work", "Travel"] is
not found and the error carries exactly those three names. -/
theorem C4_witness :
    (getKey evGood "summary" = some "Team sync" ∧
     getKey evGood "start" = some "2024-06-02 10:00:00" ∧
     getKey evGood "end" = some "2024-06-02 10:30:00" ∧
     parseTimestamp "2024-06-02 10:00:00"
        = .ok { year := 2024, month := 6, day := 2, hour := 10, minute := 0, second := 0 } ∧
     parseTimestamp "2024-06-02 10:30:00"
        = .ok { year := 2024, month := 6, day := 2, hour := 10, minute := 30, second := 0 } ∧
     worldOk.connectOk = true ∧
     worldOk.calendarNames.find?
        (fun n2 => n2 == ({ cc0 with calendar_name := "Personal" } : CaldavConfig).calendar_name)
        = none) ∧
    (create_caldav_event evGood { cc0 with calendar_name := "Personal" } 1 2 worldOk
        = (.calendarNotFound "Personal" ["Home", "Work", "Travel"],
           [Effect.caldavConnect cc0.url cc0.username]) ∧
     (Gtk.blocking_caldav_create evGood { cc0 with calendar_name := "Personal" } 1 2 worldOk).1
        = .ok (false, "Calendar \x27Personal\x27 not found. Available: "
               ++ pyListRepr ["Home", "Work", "Travel"]) ∧
     (Gtk.blocking_caldav_create evGood { cc0 with calendar_name := "Personal" } 1 2 worldOk).2
        = [Effect.caldavConnect cc0.url cc0.username]) :=
  ⟨⟨by decide, by decide, by decide, by decide, by decide, by decide, by decide⟩, by
    have h := (C4_calendar_selection evGood { cc0 with calendar_name := "Personal" } 1 2 worldOk
      "Team sync" "2024-06-02 10:00:00" "2024-06-02 10:30:00"
      { year := 2024, month := 6, day := 2, hour := 10, minute := 0, second := 0 }
      { year := 2024, month := 6, day := 2, hour := 10, minute := 30, second := 0 }
      (by decide) (by decide) (by decide) (by decide) (by decide) (by decide)).2.2 (by decide)
    exact h⟩

/-! ## Claim C6 -/

/-- C6: on a successful build and publish, each optional key (location,
description, and the recurrence-rule key, spelled rrule in the record) is
copied through to the calendar object unchanged when present and the
property is absent (none, not an empty string) when the key is absent, in
both bindings. -/
theorem C6_optional_fields_copied (d : EventData) (cc : CaldavConfig) (uid now : Nat)
    (world : CaldavWorld) (summ s en : String) (sdt edt : DateTime) (cal : String)
    (hs : getKey d "summary" = some summ) (hst : getKey d "start" = some s)
    (he : getKey d "end" = some en)
    (hps : parseTimestamp s = .ok sdt) (hpe : parseTimestamp en = .ok edt)
    (hconn : world.connectOk = true)
    (hf : world.calendarNames.find? (fun n2 => n2 == cc.calendar_name) = some cal)
    (hsave : world.saveOk = true) :
    create_caldav_event d cc uid now world
        = (.created summ,
           [Effect.caldavConnect cc.url cc.username,
            Effect.caldavSave cal (buildVevent d summ sdt edt uid now)]) ∧
    Gtk.blocking_caldav_create d cc uid now world
        = (.ok (true, "Event \x27" ++ summ ++ "\x27 created successfully!"),
           [Effect.caldavConnect cc.url cc.username,
            Effect.caldavSave cal (buildVevent d summ sdt edt uid now)]) ∧
    (buildVevent d summ sdt edt uid now).location = getKey d "location" ∧
    (buildVevent d summ sdt edt uid now).description = getKey d "description" ∧
    (buildVevent d summ sdt edt uid now).rrule = getKey d "rrule" ∧
    (∀ v, getKey d "location" = some v →
      (buildVevent d summ sdt edt uid now).location = some v) ∧
    (∀ v, getKey d "description" = some v →
      (buildVevent d summ sdt edt uid now).description = some v) ∧
    (∀ v, getKey d "rrule" = some v →
      (buildVevent d summ sdt edt uid now).rrule = some v) ∧
    (hasKey d "location" = false → (buildVevent d summ sdt edt uid now).location = none) ∧
    (hasKey d "description" = false → (buildVevent d summ sdt edt uid now).description = none) ∧
    (hasKey d "rrule" = false → (buildVevent d summ sdt edt uid now).rrule = none) := by
  have hopt : ∀ k, hasKey d k = false → getKey d k = none := by
    intro k hk
    cases ho : getKey d k with
    | none => rfl
    | some v => rw [hasKey, ho] at hk; simp at hk
  refine ⟨?_, ?_, rfl, rfl, rfl, ?_, ?_, ?_, ?_, ?_, ?_⟩
  · simp [create_caldav_event, hs, hst, he, hps, hpe, hconn, hf, hsave]
  · simp [Gtk.blocking_caldav_create, hs, hst, he, hps, hpe, hconn, hf, hsave]
  · intro v hv; simp [buildVevent, hv]
  · intro v hv; simp [buildVevent, hv]
  · intro v hv; simp [buildVevent, hv]
  · intro hk; simp [buildVevent, hopt "location" hk]
  · intro hk; simp [buildVevent, hopt "description" hk]
  · intro hk; simp [buildVevent, hopt "rrule" hk]

/-- A record with a location but no description and no recurrence rule. -/
def evLoc : EventData :=
  [("summary", "Sync"), ("start", "2024-06-02 10:00:00"),
   ("end", "2024-06-02 10:30:00"), ("location", "HQ")]

/-- C6 witness: evLoc builds an object carrying location "HQ" and no
description or rrule property. -/
theorem C6_witness :
    (getKey evLoc "summary" = some "Sync" ∧
     getKey evLoc "start" = some "2024-06-02 10:00:00" ∧
     getKey evLoc "end" = some "2024-06-02 10:30:00" ∧
     worldOk.connectOk = true ∧
     worldOk.calendarNames.find? (fun n2 => n2 == cc0.calendar_name) = some "Work" ∧
     worldOk.saveOk = true ∧
     getKey evLoc "location" = some "HQ" ∧
     hasKey evLoc "description" = false ∧ hasKey evLoc "rrule" = false) ∧
    ((buildVevent evLoc "Sync"
        { year := 2024, month := 6, day := 2, hour := 10, minute := 0, second := 0 }
        { year := 2024, month := 6, day := 2, hour := 10, minute := 30, second := 0 }
        1 2).location = some "HQ" ∧
     (buildVevent evLoc "Sync"
        { year := 2024, month := 6, day := 2, hour := 10, minute := 0, second := 0 }
        { year := 2024, month := 6, day := 2, hour := 10, minute := 30, second := 0 }
        1 2).description = none ∧
     (buildVevent evLoc "Sync"
        { year := 2024, month := 6, day := 2, hour := 10, minute := 0, second := 0 }
        { year := 2024, month := 6, day := 2, hour := 10, minute := 30, second := 0 }
        1 2).rrule = none) := by
  have h := C6_optional_fields_copied evLoc cc0 1 2 worldOk "Sync"
    "2024-06-02 10:00:00" "2024-06-02 10:30:00"
    { year := 2024, month := 6, day := 2, hour := 10, minute := 0, second := 0 }
    { year := 2024, month := 6, day := 2, hour := 10, minute := 30, second := 0 }
    "Work" (by decide) (by decide) (by decide) (by decide) (by decide) (by decide)
    (by decide) (by decide)
  exact ⟨⟨by decide, by decide, by decide, by decide, by decide, by decide, by decide,
          by decide, by decide⟩,
    h.2.2.2.2.2.1 "HQ" (by decide),
    h.2.2.2.2.2.2.2.2.2.1 (by decide),
    h.2.2.2.2.2.2.2.2.2.2 (by decide)⟩

/-! ## Claim C7 -/

/-- C7: building twice from the same record yields objects with identical
content fields but the two supplied fresh identifiers, hence distinct uids
when the uuid supply is fresh, and each object's dtstamp is the clock value
of its own build moment, not any time of the event. -/
theorem C7_fresh_identifiers (d : EventData) (cc : CaldavConfig)
    (uid1 uid2 now1 now2 : Nat) (world : CaldavWorld) (summ s en : String)
    (sdt edt : DateTime) (cal : String)
    (hs : getKey d "summary" = some summ) (hst : getKey d "start" = some s)
    (he : getKey d "end" = some en)
    (hps : parseTimestamp s = .ok sdt) (hpe : parseTimestamp en = .ok edt)
    (hconn : world.connectOk = true)
    (hf : world.calendarNames.find? (fun n2 => n2 == cc.calendar_name) = some cal)
    (hsave : world.saveOk = true)
    (hdiff : uid1 ≠ uid2) :
    contentFields (buildVevent d summ sdt edt uid1 now1)
        = contentFields (buildVevent d summ sdt edt uid2 now2) ∧
    (buildVevent d summ sdt edt uid1 now1).uid = uid1 ∧
    (buildVevent d summ sdt edt uid2 now2).uid = uid2 ∧
    (buildVevent d summ sdt edt uid1 now1).uid ≠ (buildVevent d summ sdt edt uid2 now2).uid ∧
    (buildVevent d summ sdt edt uid1 now1).dtstamp = now1 ∧
    (buildVevent d summ sdt edt uid2 now2).dtstamp = now2 ∧
    (create_caldav_event d cc uid1 now1 world).2
        = [Effect.caldavConnect cc.url cc.username,
           Effect.caldavSave cal (buildVevent d summ sdt edt uid1 now1)] ∧
    (create_caldav_event d cc uid2 now2 world).2
        = [Effect.caldavConnect cc.url cc.username,
           Effect.caldavSave cal (buildVevent d summ sdt edt uid2 now2)] := by
  refine ⟨rfl, rfl, rfl, hdiff, rfl, rfl, ?_, ?_⟩ <;>
    simp [create_caldav_event, hs, hst, he, hps, hpe, hconn, hf, hsave]

/-- C7 witness: two builds of the sample record with fresh tokens 1 and 2 at
moments 10 and 20 agree on content and differ in uid. -/
theorem C7_witness :
    (getKey evGood "summary" = some "Team sync" ∧
     worldOk.calendarNames.find? (fun n2 => n2 == cc0.calendar_name) = some "Work" ∧
     (1 : Nat) ≠ 2) ∧
    (contentFields (buildVevent evGood "Team sync"
        { year := 2024, month := 6, day := 2, hour := 10, minute := 0, second := 0 }
        { year := 2024, month := 6, day := 2, hour := 10, minute := 30, second := 0 } 1 10)
      = contentFields (buildVevent evGood "Team sync"
        { year := 2024, month := 6, day := 2, hour := 10, minute := 0, second := 0 }
        { year := 2024, month := 6, day := 2, hour := 10, minute := 30, second := 0 } 2 20) ∧
     (buildVevent evGood "Team sync"
        { year := 2024, month := 6, day := 2, hour := 10, minute := 0, second := 0 }
        { year := 2024, month := 6, day := 2, hour := 10, minute := 30, second := 0 } 1 10).uid
      ≠ (buildVevent evGood "Team sync"
        { year := 2024, month := 6, day := 2, hour := 10, minute := 0, second := 0 }
        { year := 2024, month := 6, day := 2, hour := 10, minute := 30, second := 0 } 2 20).uid ∧
     (buildVevent evGood "Team sync"
        { year := 2024, month := 6, day := 2, hour := 10, minute := 0, second := 0 }
        { year := 2024, month := 6, day := 2, hour := 10, minute := 30, second := 0 } 1 10).dtstamp
      = 10) := by
  have h := C7_fresh_identifiers evGood cc0 1 2 10 20 worldOk "Team sync"
    "2024-06-02 10:00:00" "2024-06-02 10:30:00"
    { year := 2024, month := 6, day := 2, hour := 10, minute := 0, second := 0 }
    { year := 2024, month := 6, day := 2, hour := 10, minute := 30, second := 0 }
    "Work" (by decide) (by decide) (by decide) (by decide) (by decide) (by decide)
    (by decide) (by decide) (by decide)
  exact ⟨⟨by decide, by decide, by decide⟩, h.1, h.2.2.2.1, h.2.2.2.2.1⟩

/-! ## Claim C10 -/

/-- C10: a reply that is valid JSON but lacks the response key makes the
inner payload default to the string of an empty object, which parses to the
empty record rather than raising a malformed-response error; the line-mode
binding treats the falsy empty record as extraction failure and returns to
Idle, the graphical binding fails with the missing-required-fields error. -/
theorem C10_missing_response_key_defaults (text : String) (oc : OllamaConfig)
    (cc : CaldavConfig) (nowStr : String) (answer : String) (uid now : Nat)
    (world : CaldavWorld) (st : Gtk.GtkState)
    (htext : (pyStrip text).isEmpty = false)
    (hbuf : (pyStrip st.textBuffer).isEmpty = false) :
    jsonLoadsDict "\x7b\x7d" = some [] ∧
    (get_event_details_from_llm text oc nowStr (ServiceReply.okJson none)).1 = some [] ∧
    (main text oc cc nowStr (ServiceReply.okJson none) answer uid now world).outcome
        = .noDetails ∧
    (main text oc cc nowStr (ServiceReply.okJson none) answer uid now world).states
        = [CtrlState.Idle, CtrlState.Extracting, CtrlState.Idle] ∧
    (Gtk.get_event_details_from_llm text oc nowStr (ServiceReply.okJson none)).1
        = .error (.value ("Error processing LLM response: " ++ Gtk.missingFieldsMessage)) ∧
    (Gtk.on_parse_clicked st oc nowStr (ServiceReply.okJson none)).1.resultsVisible = false ∧
    (Gtk.on_parse_clicked st oc nowStr (ServiceReply.okJson none)).1.eventDetails
        = st.eventDetails ∧
    (Gtk.on_parse_clicked st oc nowStr (ServiceReply.okJson none)).2.2
        = [Gtk.UiMsg.toast ("Parsing Failed: Error processing LLM response: "
            ++ Gtk.missingFieldsMessage)] := by
  have hline : (get_event_details_from_llm text oc nowStr (ServiceReply.okJson none)).1
      = some [] := rfl
  have hg : ∀ t, (Gtk.get_event_details_from_llm t oc nowStr (ServiceReply.okJson none)).1
      = .error (.value ("Error processing LLM response: " ++ Gtk.missingFieldsMessage)) :=
    fun t => rfl
  refine ⟨rfl, hline, ?_, ?_, hg text, ?_, ?_, ?_⟩
  · simp [main, htext, hline]
  · simp [main, htext, hline]
  · simp [Gtk.on_parse_clicked, hbuf, Gtk.do_parse_work, hg, Gtk.set_busy]
  · simp [Gtk.on_parse_clicked, hbuf, Gtk.do_parse_work, hg, Gtk.set_busy]
  · simp [Gtk.on_parse_clicked, hbuf, Gtk.do_parse_work, hg, Gtk.set_busy, Gtk.extractErrStr,
      ← str_append_assoc]

/-- C10 witness: concrete nonempty texts instantiate the theorem. -/
theorem C10_witness :
    ((pyStrip "meet").isEmpty = false ∧
     (pyStrip ({ Gtk.initialState with textBuffer := "meet" } : Gtk.GtkState).textBuffer).isEmpty
        = false) ∧
    (jsonLoadsDict "\x7b\x7d" = some [] ∧
     (get_event_details_from_llm "meet" oc0 "now" (ServiceReply.okJson none)).1 = some [] ∧
     (main "meet" oc0 cc0 "now" (ServiceReply.okJson none) "y" 1 2 worldOk).outcome
        = .noDetails ∧
     (main "meet" oc0 cc0 "now" (ServiceReply.okJson none) "y" 1 2 worldOk).states
        = [CtrlState.Idle, CtrlState.Extracting, CtrlState.Idle] ∧
     (Gtk.get_event_details_from_llm "meet" oc0 "now" (ServiceReply.okJson none)).1
        = .error (.value ("Error processing LLM response: " ++ Gtk.missingFieldsMessage)) ∧
     (Gtk.on_parse_clicked { Gtk.initialState with textBuffer := "meet" } oc0 "now"
        (ServiceReply.okJson none)).1.resultsVisible = false ∧
     (Gtk.on_parse_clicked { Gtk.initialState with textBuffer := "meet" } oc0 "now"
        (ServiceReply.okJson none)).1.eventDetails
        = ({ Gtk.initialState with textBuffer := "meet" } : Gtk.GtkState).eventDetails ∧
     (Gtk.on_parse_clicked { Gtk.initialState with textBuffer := "meet" } oc0 "now"
        (ServiceReply.okJson none)).2.2
        = [Gtk.UiMsg.toast ("Parsing Failed: Error processing LLM response: "
            ++ Gtk.missingFieldsMessage)]) :=
  ⟨⟨by decide, by decide⟩,
   C10_missing_response_key_defaults "meet" oc0 cc0 "now" "y" 1 2 worldOk
     { Gtk.initialState with textBuffer := "meet" } (by decide) (by decide)⟩

/-! ## Claim C1 -/

/-- An inner payload carrying only a summary: start and end are missing. -/
def summaryOnlyPayload : String := "\x7b\"summary\": \"Standup\"\x7d"

/-- C1 counterexample: in the line-mode binding a non-empty record missing
start and end is NOT an extraction failure: main surfaces it for
confirmation, so the controller does reach AwaitingConfirmation, and the
missing-field bailout only fires at publish time (outcome missingFields,
with zero calendar-service effects).  This contradicts the claim that for
every such response the controller goes from Extracting back to Idle
without ever reaching AwaitingConfirmation. -/
theorem C1_counterexample :
    (main "standup" oc0 cc0 "now" (ServiceReply.okJson (some summaryOnlyPayload)) "y" 1 2
        worldOk).states
      = [CtrlState.Idle, CtrlState.Extracting, CtrlState.AwaitingConfirmation,
         CtrlState.Publishing, CtrlState.Idle] ∧
    CtrlState.AwaitingConfirmation
      ∈ (main "standup" oc0 cc0 "now" (ServiceReply.okJson (some summaryOnlyPayload)) "y" 1 2
          worldOk).states ∧
    (main "standup" oc0 cc0 "now" (ServiceReply.okJson (some summaryOnlyPayload)) "y" 1 2
        worldOk).outcome = .createResult .missingFields ∧
    (main "standup" oc0 cc0 "now" (ServiceReply.okJson (some summaryOnlyPayload)) "y" 1 2
        worldOk).effects.filter isCaldavEffect = [] := by
  decide

/-- C1 amended: in the graphical binding the claim holds as stated — the
extractor fails with the missing-required-fields error, the record is never
surfaced for confirmation, no builder or calendar call happens, and the
controller stays at Idle.  In the line-mode binding only an empty record is
treated as extraction failure (Extracting to Idle); a non-empty record
missing required keys is surfaced for confirmation, and the missing-field
check fires at publish time within create_caldav_event, before any date
parsing, building, or calendar-service call. -/
theorem C1_missing_required_amended :
    (∀ (st : Gtk.GtkState) (oc : OllamaConfig) (nowStr : String) (rf : Option String)
       (d : EventData),
      (pyStrip st.textBuffer).isEmpty = false →
      jsonLoadsDict (rf.getD "\x7b\x7d") = some d →
      hasRequiredFields d = false →
      (Gtk.on_parse_clicked st oc nowStr (ServiceReply.okJson rf)).1.resultsVisible = false ∧
      (Gtk.on_parse_clicked st oc nowStr (ServiceReply.okJson rf)).1.eventDetails
          = st.eventDetails ∧
      (Gtk.on_parse_clicked st oc nowStr (ServiceReply.okJson rf)).2.1.filter isCaldavEffect
          = [] ∧
      (Gtk.on_parse_clicked st oc nowStr (ServiceReply.okJson rf)).2.2
          = [Gtk.UiMsg.toast ("Parsing Failed: Error processing LLM response: "
              ++ Gtk.missingFieldsMessage)]) ∧
    (∀ (text : String) (oc : OllamaConfig) (cc : CaldavConfig) (nowStr : String)
       (reply : ServiceReply) (answer : String) (uid now : Nat) (world : CaldavWorld)
       (d : EventData),
      (pyStrip text).isEmpty = false →
      (get_event_details_from_llm text oc nowStr reply).1 = some d →
      hasRequiredFields d = false →
      (d.isEmpty = true →
        (main text oc cc nowStr reply answer uid now world).states
            = [CtrlState.Idle, CtrlState.Extracting, CtrlState.Idle]) ∧
      (d.isEmpty = false →
        CtrlState.AwaitingConfirmation
            ∈ (main text oc cc nowStr reply answer uid now world).states ∧
        (main text oc cc nowStr reply answer uid now world).effects.filter isCaldavEffect
            = [] ∧
        (confirmIsYes answer = true →
          (main text oc cc nowStr reply answer uid now world).outcome
              = .createResult .missingFields))) := by
  constructor
  · intro st oc nowStr rf d hbuf hdec hreq
    have hg : (Gtk.get_event_details_from_llm st.textBuffer oc nowStr
        (ServiceReply.okJson rf)).1
        = .error (.value ("Error processing LLM response: " ++ Gtk.missingFieldsMessage)) := by
      simp [Gtk.get_event_details_from_llm, hdec, hreq]
    have heff := (extract_effects st.textBuffer oc nowStr (ServiceReply.okJson rf)).2
    refine ⟨?_, ?_, ?_, ?_⟩ <;>
      simp [Gtk.on_parse_clicked, hbuf, Gtk.do_parse_work, hg, heff, Gtk.set_busy,
        Gtk.extractErrStr, ollamaRequestEffect, isCaldavEffect, ← str_append_assoc]
  · intro text oc cc nowStr reply answer uid now world d htext hext hreq
    have heff := (extract_effects text oc nowStr reply).1
    constructor
    · intro hempty
      simp [main, htext, hext, hempty]
    · intro hne
      have hcreate : ∀ uid2 now2,
          create_caldav_event d cc uid2 now2 world = (.missingFields, []) :=
        fun uid2 now2 => create_missing hreq
      by_cases hy : confirmIsYes answer
      · refine ⟨?_, ?_, ?_⟩ <;>
          simp [main, htext, hext, hne, hy, hcreate, heff, ollamaRequestEffect,
            isCaldavEffect]
      · refine ⟨?_, ?_, ?_⟩ <;>
          simp [main, htext, hext, hne, hy, heff, ollamaRequestEffect, isCaldavEffect]

/-- C1 witness: the graphical binding on the summary-only payload toasts the
missing-fields failure and stays at Idle; line mode on an actually empty
record returns to Idle. -/
theorem C1_witness :
    ((pyStrip ({ Gtk.initialState with textBuffer := "standup" } : Gtk.GtkState).textBuffer).isEmpty
        = false ∧
     jsonLoadsDict ((some summaryOnlyPayload).getD "\x7b\x7d") = some [("summary", "Standup")] ∧
     hasRequiredFields [("summary", "Standup")] = false) ∧
    ((Gtk.on_parse_clicked { Gtk.initialState with textBuffer := "standup" } oc0 "now"
        (ServiceReply.okJson (some summaryOnlyPayload))).1.resultsVisible = false ∧
     (Gtk.on_parse_clicked { Gtk.initialState with textBuffer := "standup" } oc0 "now"
        (ServiceReply.okJson (some summaryOnlyPayload))).1.eventDetails
        = ({ Gtk.initialState with textBuffer := "standup" } : Gtk.GtkState).eventDetails ∧
     (Gtk.on_parse_clicked { Gtk.initialState with textBuffer := "standup" } oc0 "now"
        (ServiceReply.okJson (some summaryOnlyPayload))).2.1.filter isCaldavEffect = [] ∧
     (Gtk.on_parse_clicked { Gtk.initialState with textBuffer := "standup" } oc0 "now"
        (ServiceReply.okJson (some summaryOnlyPayload))).2.2
        = [Gtk.UiMsg.toast ("Parsing Failed: Error processing LLM response: "
            ++ Gtk.missingFieldsMessage)]) ∧
    ((main "blank" oc0 cc0 "now" (ServiceReply.okJson none) "y" 1 2 worldOk).states
        = [CtrlState.Idle, CtrlState.Extracting, CtrlState.Idle]) :=
  ⟨⟨by decide, by decide, by decide⟩,
   C1_missing_required_amended.1 { Gtk.initialState with textBuffer := "standup" } oc0 "now"
     (some summaryOnlyPayload) [("summary", "Standup")] (by decide) (by decide) (by decide),
   (C1_missing_required_amended.2 "blank" oc0 cc0 "now" (ServiceReply.okJson none) "y" 1 2
     worldOk [] (by decide) (by decide) (by decide)).1 (by decide)⟩

/-! ## Claim C2 -/

/-- A create click on a state holding a non-empty record runs the creation
worker on that record. -/
theorem gtk_create_click_eq (st : Gtk.GtkState) (d : EventData) (cc : CaldavConfig)
    (uid now : Nat) (world : CaldavWorld)
    (hst : st.eventDetails = some d) (hne : d.isEmpty = false) :
    Gtk.on_create_clicked st cc uid now world = Gtk.do_create_work st d cc uid now world := by
  cases d with
  | nil => simp at hne
  | cons a t => simp [Gtk.on_create_clicked, hst]

/-- C2 counterexample: in the line-mode binding the claim fails.  On a
publish failure the error detail is surfaced verbatim, but the run then
ends: the trace closes at Idle with no further confirmation prompt, main
retains no state after returning, and the single run contains exactly one
publish attempt, itself preceded by the extraction request of that same
run — so the extracted record is not available for a publish retry without
re-running extraction. -/
theorem C2_counterexample :
    (main "Team sync tomorrow" oc0 cc0 "2024-06-01 09:00:00" replyGood "y" 7 9
        worldSaveFail).outcome
      = .createResult (.caldavError "An error occurred with the CalDAV server: boom") ∧
    (main "Team sync tomorrow" oc0 cc0 "2024-06-01 09:00:00" replyGood "y" 7 9
        worldSaveFail).states
      = [CtrlState.Idle, CtrlState.Extracting, CtrlState.AwaitingConfirmation,
         CtrlState.Publishing, CtrlState.Idle] ∧
    connectCount (main "Team sync tomorrow" oc0 cc0 "2024-06-01 09:00:00" replyGood "y" 7 9
        worldSaveFail).effects = 1 ∧
    ((main "Team sync tomorrow" oc0 cc0 "2024-06-01 09:00:00" replyGood "y" 7 9
        worldSaveFail).effects.filter isOllamaPost).length = 1 ∧
    containsSub "boom" "An error occurred with the CalDAV server: boom" = true := by
  decide

/-- C2 amended: in the graphical binding the claim holds — on a publish
failure the controller stays at AwaitingConfirmation with the extracted
record retained and re-enabled confirm controls, the failure message
(carrying the underlying cause verbatim) is shown in a dialog, and a
further create click re-submits the very same record with no new
extraction request.  In the line-mode binding the failure message carries
the underlying cause verbatim and is not silent, but the process then
terminates: every run issues at most one calendar connection, and any run
that contacts the calendar service performed its own extraction request, so
publishing cannot be retried without re-running extraction. -/
theorem C2_publish_failure_amended :
    (∀ (st : Gtk.GtkState) (d : EventData) (cc : CaldavConfig) (uid now : Nat)
       (world : CaldavWorld) (msg : String),
      st.eventDetails = some d →
      d.isEmpty = false →
      (Gtk.blocking_caldav_create d cc uid now world).1 = .ok (false, msg) →
      (Gtk.on_create_clicked st cc uid now world).1.eventDetails = some d ∧
      (Gtk.on_create_clicked st cc uid now world).1.resultsVisible = st.resultsVisible ∧
      (Gtk.on_create_clicked st cc uid now world).1.confirmSensitive = true ∧
      (Gtk.on_create_clicked st cc uid now world).2.2
          = [Gtk.UiMsg.dialog "Event Creation Failed" msg] ∧
      (∀ (cc2 : CaldavConfig) (uid2 now2 : Nat) (world2 : CaldavWorld),
        Gtk.on_create_clicked (Gtk.on_create_clicked st cc uid now world).1 cc2 uid2 now2 world2
            = Gtk.do_create_work (Gtk.on_create_clicked st cc uid now world).1 d cc2 uid2 now2
                world2 ∧
        (Gtk.on_create_clicked (Gtk.on_create_clicked st cc uid now world).1 cc2 uid2 now2
            world2).2.1.filter isOllamaPost = [])) ∧
    (∀ (d : EventData) (cc : CaldavConfig) (uid now : Nat) (world : CaldavWorld)
       (summ s en : String) (sdt edt : DateTime) (cal : String),
      getKey d "summary" = some summ → getKey d "start" = some s →
      getKey d "end" = some en →
      parseTimestamp s = .ok sdt → parseTimestamp en = .ok edt →
      world.connectOk = true →
      world.calendarNames.find? (fun n2 => n2 == cc.calendar_name) = some cal →
      world.saveOk = false →
      (create_caldav_event d cc uid now world).1
          = .caldavError ("An error occurred with the CalDAV server: " ++ world.saveErrMsg)) ∧
    (∀ (text : String) (oc : OllamaConfig) (cc : CaldavConfig) (nowStr : String)
       (reply : ServiceReply) (answer : String) (uid now : Nat) (world : CaldavWorld),
      connectCount (main text oc cc nowStr reply answer uid now world).effects ≤ 1 ∧
      ((main text oc cc nowStr reply answer uid now world).effects.any isCaldavEffect = true →
        (main text oc cc nowStr reply answer uid now world).effects.any isOllamaPost
            = true)) := by
  refine ⟨?_, ?_, ?_⟩
  · intro st d cc uid now world msg hst hne hfail
    have hcreate := gtk_create_click_eq st d cc uid now world hst hne
    have hwork1 : (Gtk.do_create_work st d cc uid now world).1
        = Gtk.set_busy (Gtk.set_busy st true true) false true := by
      simp [Gtk.do_create_work, hfail]
    have hwork2 : (Gtk.do_create_work st d cc uid now world).2.2
        = [Gtk.UiMsg.dialog "Event Creation Failed" msg] := by
      simp [Gtk.do_create_work, hfail]
    have hstate : (Gtk.on_create_clicked st cc uid now world).1
        = Gtk.set_busy (Gtk.set_busy st true true) false true := by
      rw [hcreate, hwork1]
    have hED : (Gtk.on_create_clicked st cc uid now world).1.eventDetails = some d := by
      rw [hstate]
      simpa [Gtk.set_busy] using hst
    have hRV : (Gtk.on_create_clicked st cc uid now world).1.resultsVisible
        = st.resultsVisible := by
      rw [hstate]; simp [Gtk.set_busy]
    have hCS : (Gtk.on_create_clicked st cc uid now world).1.confirmSensitive = true := by
      rw [hstate]; simp [Gtk.set_busy]
    refine ⟨hED, hRV, hCS, by rw [hcreate, hwork2], ?_⟩
    intro cc2 uid2 now2 world2
    have hnext := gtk_create_click_eq (Gtk.on_create_clicked st cc uid now world).1 d cc2
      uid2 now2 world2 hED hne
    refine ⟨hnext, ?_⟩
    rw [hnext]
    have heffs : (Gtk.do_create_work (Gtk.on_create_clicked st cc uid now world).1 d cc2
        uid2 now2 world2).2.1
        = (Gtk.blocking_caldav_create d cc2 uid2 now2 world2).2 := by
      simp only [Gtk.do_create_work]
      split <;> rfl
    rw [heffs]
    unfold Gtk.blocking_caldav_create
    repeat' split
    all_goals simp [isOllamaPost]
  · intro d cc uid now world summ s en sdt edt cal hs hstk he hps hpe hconn hf hsave
    simp [create_caldav_event, hs, hstk, he, hps, hpe, hconn, hf, hsave]
  · intro text oc cc nowStr reply answer uid now world
    have heff := (extract_effects text oc nowStr reply).1
    cases h0 : (pyStrip text).isEmpty with
    | true => simp [main, h0, connectCount]
    | false =>
      cases hx : (get_event_details_from_llm text oc nowStr reply).1 with
      | none =>
        simp [main, h0, hx, heff, connectCount, ollamaRequestEffect, isCaldavEffect,
          isOllamaPost]
      | some d =>
        cases hd : d.isEmpty with
        | true =>
          simp [main, h0, hx, hd, heff, connectCount, ollamaRequestEffect, isCaldavEffect,
            isOllamaPost]
        | false =>
          cases hy : confirmIsYes answer with
          | false =>
            simp [main, h0, hx, hd, hy, heff, connectCount, ollamaRequestEffect,
              isCaldavEffect, isOllamaPost]
          | true =>
            constructor
            · have hle := create_connect_le_one d cc uid now world
              simp [main, h0, hx, hd, hy, heff, connectCount, ollamaRequestEffect]
              exact hle
            · intro _
              simp [main, h0, hx, hd, hy, heff, ollamaRequestEffect, isOllamaPost]

/-- A window state displaying the sample record for confirmation. -/
def stAwait : Gtk.GtkState :=
  { Gtk.initialState with eventDetails := some evGood, resultsVisible := true }

/-- C2 witness: the failing sample run instantiates all three parts of the
amended theorem (graphical retention and retry, line-mode verbatim error,
and the once-per-run bounds). -/
theorem C2_witness :
    (stAwait.eventDetails = some evGood ∧
     evGood.isEmpty = false ∧
     (Gtk.blocking_caldav_create evGood cc0 1 2 worldSaveFail).1
        = .ok (false, "A CalDAV error occurred: boom")) ∧
    ((Gtk.on_create_clicked stAwait cc0 1 2 worldSaveFail).1.eventDetails = some evGood ∧
     (Gtk.on_create_clicked stAwait cc0 1 2 worldSaveFail).1.resultsVisible
        = stAwait.resultsVisible ∧
     (Gtk.on_create_clicked stAwait cc0 1 2 worldSaveFail).2.2
        = [Gtk.UiMsg.dialog "Event Creation Failed" "A CalDAV error occurred: boom"]) ∧
    ((create_caldav_event evGood cc0 1 2 worldSaveFail).1
        = .caldavError ("An error occurred with the CalDAV server: "
            ++ worldSaveFail.saveErrMsg)) ∧
    (connectCount (main "meet" oc0 cc0 "now" replyGood "y" 1 2 worldSaveFail).effects ≤ 1) := by
  have hgtk := C2_publish_failure_amended.1 stAwait
    evGood cc0 1 2 worldSaveFail "A CalDAV error occurred: boom"
    (by decide) (by decide) (by decide)
  have hline := C2_publish_failure_amended.2.1 evGood cc0 1 2 worldSaveFail
    "Team sync" "2024-06-02 10:00:00" "2024-06-02 10:30:00"
    { year := 2024, month := 6, day := 2, hour := 10, minute := 0, second := 0 }
    { year := 2024, month := 6, day := 2, hour := 10, minute := 30, second := 0 }
    "Work" (by decide) (by decide) (by decide) (by decide) (by decide) (by decide)
    (by decide) (by decide)
  have hbound := (C2_publish_failure_amended.2.2 "meet" oc0 cc0 "now" replyGood "y" 1 2
    worldSaveFail).1
  exact ⟨⟨by decide, by decide, by decide⟩,
    ⟨hgtk.1, hgtk.2.1, hgtk.2.2.2.1⟩, hline, hbound⟩

/-! ## Claim C3 -/

/-- A record whose timestamps parse under strptime but do not match the
documented YYYY-MM-DD HH:MM:SS shape (single-digit month, day, hour,
minute, second). -/
def evLenient : EventData :=
  [("summary", "S"), ("start", "2024-6-2 9:5:3"), ("end", "2024-6-2 10:5:3")]

/-- A record whose start value cannot be parsed at all. -/
def evBadStart : EventData :=
  [("summary", "S"), ("start", "bad"), ("end", "2024-06-02 10:00:00")]

/-- C3 counterexample: the claim fails twice over.  First, the start string
of evLenient does not match the documented format YYYY-MM-DD HH:MM:SS, yet
build does not fail: the event is created and published (strptime accepts
abbreviated digit groups, and likewise a space-padded day such as
"2024-06- 2 10:00:00", which also parses).  Second, on a genuine parse
failure the DateParseError message contains the raw value but does not name
the offending field: neither "start" nor "end" occurs in it. -/
theorem C3_counterexample :
    (matchesSpecTimestampFormat "2024-6-2 9:5:3" = false ∧
     (create_caldav_event evLenient cc0 1 2 worldOk).1 = .created "S" ∧
     connectCount (create_caldav_event evLenient cc0 1 2 worldOk).2 = 1 ∧
     (create_caldav_event evLenient cc0 1 2 worldOk).2.length = 2) ∧
    (matchesSpecTimestampFormat "2024-06- 2 10:00:00" = false ∧
     parseTimestamp "2024-06- 2 10:00:00"
        = .ok { year := 2024, month := 6, day := 2, hour := 10, minute := 0, second := 0 }) ∧
    ((create_caldav_event evBadStart cc0 1 2 worldOk).1
        = .dateError ("Error: Could not parse date from LLM response. time data \x27bad\x27 does not match format \x27%Y-%m-%d %H:%M:%S\x27") ∧
     containsSub "start"
        "Error: Could not parse date from LLM response. time data \x27bad\x27 does not match format \x27%Y-%m-%d %H:%M:%S\x27"
        = false ∧
     containsSub "end"
        "Error: Could not parse date from LLM response. time data \x27bad\x27 does not match format \x27%Y-%m-%d %H:%M:%S\x27"
        = false) := by
  decide

/-- C3 amended: whenever start (or, start parsing fine, end) is rejected by
the timestamp parser — which accepts the documented YYYY-MM-DD HH:MM:SS
format as well as abbreviated digit groups and a space-padded day — build
fails with the DateParseError of that binding, carrying the underlying
parser message (which includes the raw value on a shape mismatch but does
not name which of start/end failed), and nothing is published: no
calendar-service effect occurs. -/
theorem C3_date_parse_amended (d : EventData) (cc : CaldavConfig) (uid now : Nat)
    (world : CaldavWorld) (summ s en e : String)
    (hs : getKey d "summary" = some summ) (hst : getKey d "start" = some s)
    (he : getKey d "end" = some en) :
    (parseTimestamp s = .error e →
      create_caldav_event d cc uid now world
          = (.dateError ("Error: Could not parse date from LLM response. " ++ e), []) ∧
      Gtk.blocking_caldav_create d cc uid now world
          = (.ok (false, "Could not parse date from LLM response: " ++ e), [])) ∧
    (∀ sdt, parseTimestamp s = .ok sdt → parseTimestamp en = .error e →
      create_caldav_event d cc uid now world
          = (.dateError ("Error: Could not parse date from LLM response. " ++ e), []) ∧
      Gtk.blocking_caldav_create d cc uid now world
          = (.ok (false, "Could not parse date from LLM response: " ++ e), [])) := by
  constructor
  · intro hpe
    constructor <;>
      simp [create_caldav_event, Gtk.blocking_caldav_create, hs, hst, he, hpe]
  · intro sdt hps hpe
    constructor <;>
      simp [create_caldav_event, Gtk.blocking_caldav_create, hs, hst, he, hps, hpe]

/-- C3 witness: evBadStart instantiates the start-failure half of the
amended theorem, with the strptime mismatch message. -/
theorem C3_witness :
    (getKey evBadStart "summary" = some "S" ∧
     getKey evBadStart "start" = some "bad" ∧
     getKey evBadStart "end" = some "2024-06-02 10:00:00" ∧
     parseTimestamp "bad"
        = .error "time data \x27bad\x27 does not match format \x27%Y-%m-%d %H:%M:%S\x27") ∧
    (create_caldav_event evBadStart cc0 1 2 worldOk
        = (.dateError ("Error: Could not parse date from LLM response. "
            ++ "time data \x27bad\x27 does not match format \x27%Y-%m-%d %H:%M:%S\x27"), []) ∧
     Gtk.blocking_caldav_create evBadStart cc0 1 2 worldOk
        = (.ok (false, "Could not parse date from LLM response: "
            ++ "time data \x27bad\x27 does not match format \x27%Y-%m-%d %H:%M:%S\x27"), [])) :=
  ⟨⟨by decide, by decide, by decide, by decide⟩,
   (C3_date_parse_amended evBadStart cc0 1 2 worldOk "S" "bad" "2024-06-02 10:00:00"
     "time data \x27bad\x27 does not match format \x27%Y-%m-%d %H:%M:%S\x27"
     (by decide) (by decide) (by decide)).1 (by decide)⟩

end OllamaCal
